import Mathlib

/-!
Verification development for the efsbroker / nfsbroker service-broker code.

The Go sources are shallowly embedded as pure Lean functions:

* the in-memory maps `map[string]EFSInstance` / `map[string]BindDetails`
  become association lists with lookup / insert / erase helpers;
* each remote AWS call becomes a field of an environment structure holding
  the response the remote side would give (`Except Err ...`); polling loops
  consume a `Nat`-indexed sequence of responses and take explicit fuel, with
  `none` standing for a loop that has not terminated within the fuel;
* the broker methods become functions from the environment and the dynamic
  state to the updated state together with their result, mirroring the Go
  control flow statement by statement.
-/

set_option autoImplicit false

deriving instance DecidableEq for Except

namespace Efsbroker

/-- Whether `pat` is a leading segment of `s` (on character lists). -/
def charsLeads : List Char → List Char → Bool
  | [], _ => true
  | _ :: _, [] => false
  | p :: ps, c :: cs => (p = c) && charsLeads ps cs

/-- Whether `pat` occurs as a contiguous segment of the second list. -/
def charsContains (pat : List Char) : List Char → Bool
  | [] => charsLeads pat []
  | c :: rest => charsLeads pat (c :: rest) || charsContains pat rest

/-- `strings.Contains s sub`: substring containment, searched over the
character lists of the two strings. -/
def strContains (s sub : String) : Bool :=
  charsContains sub.data s.data

/-- Reading `m[k]` from a Go map modelled as an association list. -/
def mapLookup {α : Type} (m : List (String × α)) (k : String) : Option α :=
  match m with
  | [] => none
  | (k2, v) :: rest => if k2 = k then some v else mapLookup rest k

/-- Writing `m[k] = v` in a Go map: replace the entry if present, else add it. -/
def mapInsert {α : Type} (m : List (String × α)) (k : String) (v : α) :
    List (String × α) :=
  match m with
  | [] => [(k, v)]
  | (k2, v2) :: rest =>
    if k2 = k then (k, v) :: rest else (k2, v2) :: mapInsert rest k v

/-- `delete(m, k)` on a Go map. -/
def mapErase {α : Type} (m : List (String × α)) (k : String) :
    List (String × α) :=
  match m with
  | [] => []
  | (k2, v2) :: rest =>
    if k2 = k then mapErase rest k else (k2, v2) :: mapErase rest k

/-- `efs.LifeCycleStateCreating` from the AWS SDK. -/
def lifeCycleStateCreating : String := "creating"

/-- `efs.LifeCycleStateAvailable` from the AWS SDK. -/
def lifeCycleStateAvailable : String := "available"

/-- `efs.LifeCycleStateDeleted` from the AWS SDK. -/
def lifeCycleStateDeleted : String := "deleted"

/-- The Go `error` values that flow through the broker: errors returned by
the AWS client are carried with their message (`remote`), and the package
and brokerapi sentinel errors get one constructor each so that the source's
pointer-equality test `err == ErrNoMountTargets` stays faithful. -/
inductive Err
  | remote (msg : String)
  | noMountTargets
  | unexpectedFsCount (n : Nat)
  | unexpectedFsState
  | invalidLifecycle
  | instanceDoesNotExist
  | unrecognizedOperation
  | unimplemented
deriving DecidableEq

/-- `err.Error()` for each modelled error. -/
def Err.msg : Err → String
  | .remote m => m
  | .noMountTargets => "no mount targets found"
  | .unexpectedFsCount n =>
      "AWS returned an unexpected number of filesystems: " ++ toString n
  | .unexpectedFsState => "AWS returned an unexpected filesystem state"
  | .invalidLifecycle =>
      "invalid lifecycle transition, please wait until all mount targets are available"
  | .instanceDoesNotExist => "instance does not exist"
  | .unrecognizedOperation => "unrecognized operationData"
  | .unimplemented => "unimplemented"

/-- One entry of `DescribeMountTargetsOutput.MountTargets`. -/
structure MountTarget where
  mountTargetId : String
  lifeCycleState : String
deriving DecidableEq

/-- `brokerapi.ProvisionDetails` (the request fingerprint compared by
`instanceConflicts`); raw parameters kept as an opaque string. -/
structure ProvisionDetails where
  serviceID : String
  planID : String
  organizationGUID : String
  spaceGUID : String
  rawParameters : String
deriving DecidableEq

/-- `EFSInstance` from the efsbroker package: the embedded provision
details, the AWS filesystem id, and the UNEXPORTED `err` failure flag. -/
structure EFSInstance where
  details : ProvisionDetails
  efsId : String
  err : Bool
deriving DecidableEq

/-- `brokerapi.BindDetails`, kept opaque apart from decidable equality. -/
structure BindDetails where
  appGuid : String
  planID : String
  serviceID : String
  rawParameters : String
deriving DecidableEq

/-- `dynamicState`: the two shared maps guarded by the broker mutex. -/
structure DynamicState where
  instanceMap : List (String × EFSInstance)
  bindingMap : List (String × BindDetails)
deriving DecidableEq

/-- The result of one `DescribeFileSystems` call: either the client error or
the list of filesystems, each with its (possibly nil) `LifeCycleState`. -/
abbrev FsDescribeResult : Type := Except Err (List (Option String))

/-- The result of one `DescribeMountTargets` call. -/
abbrev MtDescribeResult : Type := Except Err (List MountTarget)

/-- `getFsStatus` (part_000 lines 405-421): surface the describe error,
reject a filesystem count other than one, reject a nil lifecycle state,
otherwise return the state.  The `(state, err)` pair mirrors the Go
multiple return values; every error path returns state `""`. -/
def getFsStatus (r : FsDescribeResult) : String × Option Err :=
  match r with
  | .error e => ("", some e)
  | .ok [some s] => (s, none)
  | .ok [none] => ("", some .unexpectedFsState)
  | .ok l => ("", some (.unexpectedFsCount l.length))

/-- `getMountsStatus` (part_000 lines 423-438): surface the describe error,
return the sentinel `ErrNoMountTargets` on an empty list, otherwise the
first mount target's lifecycle state. -/
def getMountsStatus (r : MtDescribeResult) : String × Option Err :=
  match r with
  | .error e => ("", some e)
  | .ok [] => ("", some .noMountTargets)
  | .ok (mt :: _) => (mt.lifeCycleState, none)

/-- The remote responses a status poll sees: one `DescribeFileSystems`
response and one `DescribeMountTargets` response for the instance's
filesystem id. -/
structure StatusEnv where
  describeFileSystems : FsDescribeResult
  describeMountTargets : MtDescribeResult

/-- `getStatus` (part_000 lines 381-403): a non-available filesystem state
is returned raw; an available filesystem with no mount targets reports
`creating`; otherwise the first mount target's state is returned; any other
error is surfaced. -/
def getStatus (env : StatusEnv) : Except Err String :=
  match getFsStatus env.describeFileSystems with
  | (_, some e) => .error e
  | (fsStatus, none) =>
    if fsStatus ≠ lifeCycleStateAvailable then .ok fsStatus
    else
      match getMountsStatus env.describeMountTargets with
      | (_, some .noMountTargets) => .ok lifeCycleStateCreating
      | (_, some e) => .error e
      | (mtStatus, none) => .ok mtStatus

/-- The externally visible `brokerapi.LastOperationState`. -/
inductive LastOpState
  | inProgress
  | succeeded
  | failed
deriving DecidableEq

/-- `awsStateToLastOperation` (part_000 lines 440-449). -/
def awsStateToLastOperation (state : String) : LastOpState :=
  if state = lifeCycleStateCreating then .inProgress
  else if state = lifeCycleStateAvailable then .succeeded
  else .failed

/-- `LastOperation` (part_000 lines 347-379).  The `provision` branch looks
the instance up, computes the combined remote status and maps it; an error
from `getStatus` is RETURNED AS AN ERROR, not mapped.  The `deprovision`
branch reports `Succeeded` for an absent record, `Failed` for a record
whose failure flag is set, and `InProgress` otherwise. -/
def LastOperation (env : StatusEnv) (st : DynamicState) (instanceID : String)
    (operationData : String) : Except Err LastOpState :=
  if operationData = "provision" then
    match mapLookup st.instanceMap instanceID with
    | none => .error .instanceDoesNotExist
    | some _ =>
      match getStatus env with
      | .error e => .error e
      | .ok status => .ok (awsStateToLastOperation status)
  else if operationData = "deprovision" then
    match mapLookup st.instanceMap instanceID with
    | none => .ok .succeeded
    | some inst => if inst.err then .ok .failed else .ok .inProgress
  else .error .unrecognizedOperation

/-- The `reflect.DeepEqual(details, existing)` call inside
`instanceConflicts` (part_000 line 453) compares a
`brokerapi.ProvisionDetails` value against an `EFSInstance` value.
`reflect.DeepEqual` is defined to return `false` whenever the two values
have distinct dynamic types, which these always do, so the call is
constantly `false` regardless of the field contents. -/
def deepEqualDetailsInstance (_ : ProvisionDetails) (_ : EFSInstance) : Bool :=
  false

/-- `instanceConflicts` (part_000 lines 451-458). -/
def instanceConflicts (st : DynamicState) (details : ProvisionDetails)
    (instanceID : String) : Bool :=
  match mapLookup st.instanceMap instanceID with
  | some existing => !(deepEqualDetailsInstance details existing)
  | none => false

/-- The result of the foreground `Provision` call. -/
inductive ProvisionResult
  | asyncRequired
  | instanceAlreadyExists
  | remoteError (e : Err)
  | accepted
deriving DecidableEq

/-- `Provision` (part_000 lines 135-169): reject a synchronous-only caller,
reject on conflict, synchronously call `CreateFileSystem` and surface its
error, otherwise register the instance (with a cleared failure flag) and
accept; `createFileSystem` carries the remote response to the one
synchronous create call. -/
def Provision (createFileSystem : Except Err String) (st : DynamicState)
    (instanceID : String) (details : ProvisionDetails) (asyncAllowed : Bool) :
    DynamicState × ProvisionResult :=
  if !asyncAllowed then (st, .asyncRequired)
  else if instanceConflicts st details instanceID then
    (st, .instanceAlreadyExists)
  else
    match createFileSystem with
    | .error e => (st, .remoteError e)
    | .ok fsId =>
      ({ st with
          instanceMap := mapInsert st.instanceMap instanceID ⟨details, fsId, false⟩ },
        .accepted)

/-- The remote responses the create background task sees: the
`DescribeFileSystems` answer of the n-th poll, and the answer to the one
`CreateMountTarget` call. -/
structure CreateEnv where
  fsPolls : Nat → FsDescribeResult
  createMountTarget : Except Err Unit

/-- The wait loop of `createMountTargets` (part_000 lines 174-183):
`for state == creating`, with the body re-checking the condition via
`continue` when `err != nil` (without polling again), and otherwise
sleeping and polling once more.  `i` is the index of the next poll;
`none` means the fuel ran out before the loop exited. -/
def cmtWait (polls : Nat → FsDescribeResult) :
    Nat → Nat → String × Option Err → Option (String × Option Err)
  | 0, _, _ => none
  | fuel + 1, i, (state, e) =>
    if state = lifeCycleStateCreating then
      match e with
      | some _ => cmtWait polls fuel i (state, e)
      | none => cmtWait polls fuel (i + 1) (getFsStatus (polls i))
    else some (state, e)

/-- `createMountTargets` (part_000 lines 171-196): run the wait loop from
the initial poll, then always call `CreateMountTarget`; its error is only
logged.  The result carries the (unchanged) dynamic state, whether
`CreateMountTarget` was called, and the logged error if any; the function
never touches the instance map. -/
def createMountTargets (env : CreateEnv) (fuel : Nat) (st : DynamicState) :
    Option (DynamicState × Bool × Option Err) :=
  match cmtWait env.fsPolls fuel 1 (getFsStatus (env.fsPolls 0)) with
  | none => none
  | some _ =>
    match env.createMountTarget with
    | .error e => some (st, true, some e)
    | .ok () => some (st, true, none)

/-- `setErrorOnInstance` (part_000 lines 223-233): under the guard, set the
failure flag of the instance if it is present.  No persistence happens
here. -/
def setErrorOnInstance (st : DynamicState) (instanceId : String) :
    DynamicState :=
  match mapLookup st.instanceMap instanceId with
  | some inst =>
    { st with
        instanceMap := mapInsert st.instanceMap instanceId { inst with err := true } }
  | none => st

/-- The `delete(b.dynamic.InstanceMap, instanceId)` step of the destroy
task. -/
def removeInstance (st : DynamicState) (instanceId : String) : DynamicState :=
  { st with instanceMap := mapErase st.instanceMap instanceId }

/-- The remote responses the destroy background task sees, in program
order: the first `DescribeMountTargets`, the `DeleteMountTarget` answer,
the mount-target wait-loop polls, the `DeleteFileSystem` answer, and the
filesystem wait-loop polls. -/
structure DestroyEnv where
  describeMountTargets : MtDescribeResult
  deleteMountTarget : Except Err Unit
  mountsPolls : Nat → MtDescribeResult
  deleteFileSystem : Except Err Unit
  fsPolls : Nat → FsDescribeResult

/-- `deleteMountTargets` (part_000 lines 285-315): surface the describe
error; an empty list is success; a first mount target that is not
`available` fails with the precondition error before any delete call;
otherwise issue `DeleteMountTarget` and surface its error.  The boolean
records whether `DeleteMountTarget` was called. -/
def deleteMountTargets (env : DestroyEnv) : Except Err Unit × Bool :=
  match env.describeMountTargets with
  | .error e => (.error e, false)
  | .ok [] => (.ok (), false)
  | .ok (mt :: _) =>
    if mt.lifeCycleState ≠ lifeCycleStateAvailable then
      (.error .invalidLifecycle, false)
    else (env.deleteMountTarget, true)

/-- The mount-target wait loop of `deprovision` (part_000 lines 247-252):
`for state != deleted && state != ""`, ignoring the error return of
`getMountsStatus` (so any error, including the no-mount-targets sentinel,
yields state `""` and exits). -/
def mountsWaitGo (polls : Nat → MtDescribeResult) :
    Nat → Nat → String → Option Unit
  | 0, _, _ => none
  | fuel + 1, i, state =>
    if state ≠ lifeCycleStateDeleted ∧ state ≠ "" then
      mountsWaitGo polls fuel (i + 1) (getMountsStatus (polls i)).1
    else some ()

/-- The mount-target wait loop started from its initial poll. -/
def mountsWait (polls : Nat → MtDescribeResult) (fuel : Nat) : Option Unit :=
  mountsWaitGo polls fuel 1 (getMountsStatus (polls 0)).1

/-- The filesystem wait loop of `deprovision` (part_000 lines 264-268):
`for state != deleted && err == nil`, returning the final `(state, err)`
pair. -/
def fsWaitGo (polls : Nat → FsDescribeResult) :
    Nat → Nat → String × Option Err → Option (String × Option Err)
  | 0, _, _ => none
  | fuel + 1, i, (state, e) =>
    if state ≠ lifeCycleStateDeleted ∧ e = none then
      fsWaitGo polls fuel (i + 1) (getFsStatus (polls i))
    else some (state, e)

/-- The filesystem wait loop started from its initial poll. -/
def fsWait (polls : Nat → FsDescribeResult) (fuel : Nat) :
    Option (String × Option Err) :=
  fsWaitGo polls fuel 1 (getFsStatus (polls 0))

/-- The observable outcome of one run of the destroy background task. -/
structure DestroyOutcome where
  state : DynamicState
  persisted : Bool
  deleteMTCalled : Bool
  deleteFSCalled : Bool
deriving DecidableEq

/-- `deprovision` background task (part_000 lines 235-283): delete the
mount targets (failure sets the error flag WITHOUT persisting and stops);
wait for the mount targets to be gone; delete the filesystem (failure sets
the error flag without persisting and stops); wait for the filesystem to
be gone; a final wait error whose message does not contain
`does not exist` sets the error flag without persisting; otherwise take
the guard, persist, and remove the instance from the map. -/
def deprovision (env : DestroyEnv) (fuel : Nat) (st : DynamicState)
    (instanceId : String) : Option DestroyOutcome :=
  match (deleteMountTargets env).1 with
  | .error _ =>
    some ⟨setErrorOnInstance st instanceId, false, (deleteMountTargets env).2, false⟩
  | .ok () =>
    match mountsWait env.mountsPolls fuel with
    | none => none
    | some () =>
      match env.deleteFileSystem with
      | .error _ =>
        some ⟨setErrorOnInstance st instanceId, false, (deleteMountTargets env).2, true⟩
      | .ok () =>
        match fsWait env.fsPolls fuel with
        | none => none
        | some (_, some e) =>
          if strContains e.msg "does not exist" then
            some ⟨removeInstance st instanceId, true, (deleteMountTargets env).2, true⟩
          else
            some ⟨setErrorOnInstance st instanceId, false, (deleteMountTargets env).2, true⟩
        | some (_, none) =>
          some ⟨removeInstance st instanceId, true, (deleteMountTargets env).2, true⟩

/-- The result of the foreground `Deprovision` call. -/
inductive DeprovisionResult
  | instanceDoesNotExist
  | accepted
deriving DecidableEq

/-- Foreground `Deprovision` (part_000 lines 205-221): under the guard,
reject an unknown instance, otherwise launch the background task and
accept. -/
def Deprovision (st : DynamicState) (instanceID : String) : DeprovisionResult :=
  match mapLookup st.instanceMap instanceID with
  | none => .instanceDoesNotExist
  | some _ => .accepted

/-- What `encoding/json.Marshal` keeps of an `EFSInstance`: the exported
embedded `ProvisionDetails` fields and the exported `EfsId` field.  The
lowercase `err` field (part_000 line 44) is unexported, and Go's JSON
encoder silently skips unexported fields, so it has no counterpart here. -/
structure PersistedEFSInstance where
  details : ProvisionDetails
  efsId : String
deriving DecidableEq

/-- JSON encoding of one instance record: drop the unexported flag. -/
def marshalInstance (i : EFSInstance) : PersistedEFSInstance :=
  { details := i.details, efsId := i.efsId }

/-- JSON decoding of one instance record: the unexported flag is never in
the payload, so `json.Unmarshal` leaves it at Go's zero value `false`. -/
def unmarshalInstance (p : PersistedEFSInstance) : EFSInstance :=
  { details := p.details, efsId := p.efsId, err := false }

/-- The serialized snapshot written to the state file. -/
structure PersistedDynamicState where
  instanceMap : List (String × PersistedEFSInstance)
  bindingMap : List (String × BindDetails)
deriving DecidableEq

/-- `persist` (part_000 lines 496-516): `json.Marshal` the dynamic state
and write it out; only the serialization content is modelled. -/
def persist (st : DynamicState) : PersistedDynamicState :=
  { instanceMap := st.instanceMap.map fun kv => (kv.1, marshalInstance kv.2),
    bindingMap := st.bindingMap }

/-- `restoreDynamicState` (part_002 lines 433-454, the restore side of the
persistence path): `json.Unmarshal` the state file back into the dynamic
state. -/
def restoreDynamicState (p : PersistedDynamicState) : DynamicState :=
  { instanceMap := p.instanceMap.map fun kv => (kv.1, unmarshalInstance kv.2),
    bindingMap := p.bindingMap }

/-- `brokerapi.Binding`; `Bind` only ever returns its zero value. -/
structure Binding where
  volumeId : String
deriving DecidableEq

/-- `Bind` (part_000 lines 317-328): take the guard, persist the unchanged
state, and return the zero binding with the `unimplemented` error. -/
def Bind (st : DynamicState) (_instanceID _bindingID : String)
    (_details : BindDetails) : DynamicState × Except Err Binding :=
  (st, .error .unimplemented)

/-- `Unbind` (part_000 lines 330-341): take the guard, persist the
unchanged state, and return the `unimplemented` error. -/
def Unbind (st : DynamicState) (_instanceID _bindingID : String) :
    DynamicState × Except Err Unit :=
  (st, .error .unimplemented)

/-- The events relevant to the mutual-exclusion contract, in the order a
broker operation performs them: guard acquire and release, reads and
writes of the shared instance/binding maps, blocking remote calls, and
sleeps. -/
inductive Ev
  | acquire
  | release
  | mapRead
  | mapWrite
  | remoteCall
  | sleep
deriving DecidableEq

/-- The guard contract of the spec checked over an event trace: at depth
`d` of held acquisitions, every map access needs `d > 0` and every remote
call or sleep needs `d = 0`. -/
def guardedOk : List Ev → Nat → Bool
  | [], _ => true
  | .acquire :: t, d => guardedOk t (d + 1)
  | .release :: t, d => guardedOk t (d - 1)
  | .mapRead :: t, d => decide (0 < d) && guardedOk t d
  | .mapWrite :: t, d => decide (0 < d) && guardedOk t d
  | .remoteCall :: t, d => decide (d = 0) && guardedOk t d
  | .sleep :: t, d => decide (d = 0) && guardedOk t d

/-- Event trace of efsbroker `Provision` (part_000 lines 135-169), success
path: `mutex.Lock` (140); conflict-check map read (149); the
`CreateFileSystem` remote call (154) — UNDER THE GUARD, since the deferred
unlock only runs at return; the instance-map write (164); the deferred
`persist` reading the maps (143); the deferred unlock (141). -/
def provisionTraceEfs : List Ev :=
  [.acquire, .mapRead, .remoteCall, .mapWrite, .mapRead, .release]

/-- Event trace of efsbroker `LastOperation` (part_000 lines 347-379),
`provision` branch: the instance-map read (354) happens WITH NO GUARD —
the method never touches the mutex — followed by the remote describe calls
of `getStatus` (359). -/
def lastOperationTraceEfs : List Ev :=
  [.mapRead, .remoteCall]

/-- Event trace of nfsbroker `Provision` (nfsbroker.go lines 134-171):
the conflict-check map read (139) and the instance-map write (158) both
happen BEFORE `mutex.Lock` (165); the deferred `store.Save` reads the maps
under the guard (168); deferred unlock. -/
def provisionTraceNfs : List Ev :=
  [.mapRead, .mapWrite, .acquire, .mapRead, .release]

/-- Event trace of efsbroker foreground `Deprovision` (part_000 lines
205-221): lock (210), instance-map read (213), unlock; the background task
runs on its own goroutine. -/
def deprovisionTraceEfs : List Ev :=
  [.acquire, .mapRead, .release]

/-- Event trace of `setErrorOnInstance` (part_000 lines 223-233): lock,
map read, map write, unlock. -/
def setErrorTraceEfs : List Ev :=
  [.acquire, .mapRead, .mapWrite, .release]

/-- Event trace of the `deprovision` background task (part_000 lines
235-283), success path with one poll per wait loop: all remote calls and
sleeps run unguarded, then lock (276), map write (280), the deferred
`persist` map read (279), unlock. -/
def deprovisionTaskTraceEfs : List Ev :=
  [.remoteCall, .remoteCall, .remoteCall, .sleep, .remoteCall, .remoteCall,
    .sleep, .remoteCall, .acquire, .mapWrite, .mapRead, .release]

/-- Event trace of the `createMountTargets` background task (part_000
lines 171-196) with one poll iteration: remote describes, a sleep, and the
`CreateMountTarget` call, all unguarded; the task never touches the maps. -/
def createMountTargetsTraceEfs : List Ev :=
  [.remoteCall, .sleep, .remoteCall, .remoteCall]

/-- Event trace of efsbroker `Bind` (part_000 lines 317-328): lock, the
deferred `persist` map read, unlock. -/
def bindTraceEfs : List Ev :=
  [.acquire, .mapRead, .release]

/-- A concrete provision request fingerprint. -/
def dW : ProvisionDetails :=
  ⟨"efs-service", "generalPurpose", "org-1", "space-1", ""⟩

/-- A concrete registered instance with a clear failure flag. -/
def instW : EFSInstance := ⟨dW, "fs-1", false⟩

/-- A concrete dynamic state holding the one instance `inst-1`. -/
def stW : DynamicState := ⟨[("inst-1", instW)], []⟩

/-- A concrete binding record. -/
def bdW : BindDetails := ⟨"app-1", "generalPurpose", "efs-service", ""⟩

/-- A status environment (only the destroy-poll branch reads it in the
destroy theorems). -/
def senvW : StatusEnv := ⟨.ok [some "available"], .ok [⟨"mt-1", "available"⟩]⟩

/-- A destroy environment where every remote step succeeds: one available
mount target, its deletion succeeds, the re-describe finds none left, the
filesystem delete succeeds and the final poll reports `deleted`. -/
def envDestroyOk : DestroyEnv :=
  ⟨.ok [⟨"mt-1", "available"⟩], .ok (), fun _ => .ok [], .ok (),
    fun _ => .ok [some "deleted"]⟩

/-- The outcome of `deprovision` under `envDestroyOk` on `stW`. -/
def outDestroyOk : DestroyOutcome := ⟨⟨[], []⟩, true, true, true⟩

/-- A destroy environment whose very first step, the mount-target
describe, fails. -/
def envC2fail : DestroyEnv :=
  ⟨.error (.remote "AccessDenied: describe failed"), .ok (), fun _ => .ok [],
    .ok (), fun _ => .ok [some "deleted"]⟩

/-- The outcome of `deprovision` under `envC2fail` on `stW`: the failure
flag is set but nothing was persisted. -/
def outC2fail : DestroyOutcome :=
  ⟨⟨[("inst-1", ⟨dW, "fs-1", true⟩)], []⟩, false, false, false⟩

/-- Filesystem polls for the create task: the first poll reports
`creating`, the second fails transiently, later polls would still report
`creating`. -/
def pollsC4 : Nat → FsDescribeResult := fun n =>
  if n = 0 then .ok [some lifeCycleStateCreating]
  else if n = 1 then .error (.remote "connection timeout")
  else .ok [some lifeCycleStateCreating]

/-- The create environment built on `pollsC4`. -/
def envC4 : CreateEnv := ⟨pollsC4, .ok ()⟩

/-- A destroy environment with no mount targets at all. -/
def envC5empty : DestroyEnv :=
  ⟨.ok [], .ok (), fun _ => .ok [], .ok (), fun _ => .ok [some "deleted"]⟩

/-- A destroy environment whose first mount target is still `creating`. -/
def envC5busy : DestroyEnv :=
  ⟨.ok [⟨"mt-1", "creating"⟩], .ok (), fun _ => .ok [], .ok (),
    fun _ => .ok [some "deleted"]⟩

/-- A destroy environment where the `DeleteFileSystem` call itself fails
with an error saying the filesystem does not exist. -/
def envC6 : DestroyEnv :=
  ⟨.ok [], .ok (), fun _ => .ok [],
    .error (.remote "File system fs-1 does not exist"), fun _ => .ok [some "deleted"]⟩

/-- The outcome of `deprovision` under `envC6` on `stW`. -/
def outC6 : DestroyOutcome :=
  ⟨⟨[("inst-1", ⟨dW, "fs-1", true⟩)], []⟩, false, false, true⟩

/-- A destroy environment where the delete succeeds and the final status
poll fails with the tolerated does-not-exist error. -/
def envC6ok : DestroyEnv :=
  ⟨.ok [], .ok (), fun _ => .ok [], .ok (),
    fun _ => .error (.remote "File system fs-1 does not exist")⟩

/-- A dynamic state whose one instance carries a set failure flag and
which holds one binding. -/
def stC8 : DynamicState := ⟨[("inst-1", ⟨dW, "fs-1", true⟩)], [("b-1", bdW)]⟩

/-- A create environment where the filesystem is available at once and the
mount-target creation fails. -/
def envC9 : CreateEnv :=
  ⟨fun _ => .ok [some "available"], .error (.remote "subnet exhausted")⟩

/-- The outcome of `deprovision` under `envC5empty` on `stW`. -/
def outC5empty : DestroyOutcome := ⟨⟨[], []⟩, true, false, true⟩

/-- The outcome of `deprovision` under `envC6ok` on `stW`. -/
def outC6ok : DestroyOutcome := ⟨⟨[], []⟩, true, false, true⟩

/-- A status environment whose filesystem describe reports `deleting`. -/
def envC3a : StatusEnv := ⟨.ok [some "deleting"], .ok []⟩

/-- A status environment with an available filesystem and no mount
targets yet. -/
def envC3b : StatusEnv := ⟨.ok [some "available"], .ok []⟩

/-- A status environment with an available filesystem whose first mount
target is still `creating`. -/
def envC3c : StatusEnv := ⟨.ok [some "available"], .ok [⟨"mt-1", "creating"⟩]⟩

theorem mapLookup_mapInsert {α : Type} (m : List (String × α)) (k : String)
    (v : α) : mapLookup (mapInsert m k v) k = some v := by
  induction m with
  | nil => simp [mapInsert, mapLookup]
  | cons hd tl ih =>
    obtain ⟨k2, v2⟩ := hd
    by_cases h : k2 = k
    · simp [mapInsert, mapLookup, h]
    · simp [mapInsert, mapLookup, h, ih]

theorem mapLookup_mapErase {α : Type} (m : List (String × α)) (k : String) :
    mapLookup (mapErase m k) k = none := by
  induction m with
  | nil => simp [mapErase, mapLookup]
  | cons hd tl ih =>
    obtain ⟨k2, v2⟩ := hd
    by_cases h : k2 = k <;> simp [mapErase, mapLookup, h, ih]

theorem setErrorOnInstance_lookup (st : DynamicState) (k : String)
    (inst : EFSInstance) (h : mapLookup st.instanceMap k = some inst) :
    mapLookup (setErrorOnInstance st k).instanceMap k =
      some { inst with err := true } := by
  simp [setErrorOnInstance, h, mapLookup_mapInsert]

theorem removeInstance_lookup (st : DynamicState) (k : String) :
    mapLookup (removeInstance st k).instanceMap k = none := by
  simp [removeInstance, mapLookup_mapErase]

theorem lastOperation_deprovision (env : StatusEnv) (st : DynamicState)
    (idS : String) :
    LastOperation env st idS "deprovision" =
      match mapLookup st.instanceMap idS with
      | none => .ok .succeeded
      | some inst => if inst.err then .ok .failed else .ok .inProgress := by
  simp [LastOperation]

theorem lastOperation_deprovision_succeeded (env : StatusEnv)
    (st : DynamicState) (idS : String)
    (h : mapLookup st.instanceMap idS = none) :
    LastOperation env st idS "deprovision" = .ok .succeeded := by
  rw [lastOperation_deprovision, h]

theorem lastOperation_deprovision_failed (env : StatusEnv) (st : DynamicState)
    (idS : String) (inst : EFSInstance)
    (h : mapLookup st.instanceMap idS = some inst) (he : inst.err = true) :
    LastOperation env st idS "deprovision" = .ok .failed := by
  rw [lastOperation_deprovision, h]
  simp [he]

theorem deprovision_dmtError (env : DestroyEnv) (fuel : Nat)
    (st : DynamicState) (idS : String) (e : Err)
    (h : (deleteMountTargets env).1 = .error e) :
    deprovision env fuel st idS =
      some ⟨setErrorOnInstance st idS, false, (deleteMountTargets env).2, false⟩ := by
  simp only [deprovision, h]

theorem deprovision_deleteFsError (env : DestroyEnv) (fuel : Nat)
    (st : DynamicState) (idS : String) (e : Err)
    (h1 : (deleteMountTargets env).1 = .ok ())
    (hw : mountsWait env.mountsPolls fuel = some ())
    (h2 : env.deleteFileSystem = .error e) :
    deprovision env fuel st idS =
      some ⟨setErrorOnInstance st idS, false, (deleteMountTargets env).2, true⟩ := by
  simp only [deprovision, h1, hw, h2]

theorem deprovision_success (env : DestroyEnv) (fuel : Nat)
    (st : DynamicState) (idS : String) (s : String)
    (h1 : (deleteMountTargets env).1 = .ok ())
    (hw : mountsWait env.mountsPolls fuel = some ())
    (h2 : env.deleteFileSystem = .ok ())
    (h3 : fsWait env.fsPolls fuel = some (s, none)) :
    deprovision env fuel st idS =
      some ⟨removeInstance st idS, true, (deleteMountTargets env).2, true⟩ := by
  simp only [deprovision, h1, hw, h2, h3]

theorem deprovision_fsPollTolerated (env : DestroyEnv) (fuel : Nat)
    (st : DynamicState) (idS : String) (s : String) (e : Err)
    (h1 : (deleteMountTargets env).1 = .ok ())
    (hw : mountsWait env.mountsPolls fuel = some ())
    (h2 : env.deleteFileSystem = .ok ())
    (h3 : fsWait env.fsPolls fuel = some (s, some e))
    (hc : strContains e.msg "does not exist" = true) :
    deprovision env fuel st idS =
      some ⟨removeInstance st idS, true, (deleteMountTargets env).2, true⟩ := by
  simp only [deprovision, h1, hw, h2, h3, hc, if_true]

theorem deprovision_fsPollError (env : DestroyEnv) (fuel : Nat)
    (st : DynamicState) (idS : String) (s : String) (e : Err)
    (h1 : (deleteMountTargets env).1 = .ok ())
    (hw : mountsWait env.mountsPolls fuel = some ())
    (h2 : env.deleteFileSystem = .ok ())
    (h3 : fsWait env.fsPolls fuel = some (s, some e))
    (hc : strContains e.msg "does not exist" = false) :
    deprovision env fuel st idS =
      some ⟨setErrorOnInstance st idS, false, (deleteMountTargets env).2, true⟩ := by
  simp only [deprovision, h1, hw, h2, h3, hc]
  simp

theorem deprovision_terminates_mountsWait (env : DestroyEnv) (fuel : Nat)
    (st : DynamicState) (idS : String) (out : DestroyOutcome)
    (h1 : (deleteMountTargets env).1 = .ok ())
    (himpl : deprovision env fuel st idS = some out) :
    mountsWait env.mountsPolls fuel = some () := by
  cases hw : mountsWait env.mountsPolls fuel with
  | none => rw [deprovision, h1, hw] at himpl; exact absurd himpl (by simp)
  | some u => cases u; rfl

theorem roundTripInstanceMap (m : List (String × EFSInstance)) :
    (m.map fun kv => (kv.1, marshalInstance kv.2)).map
        (fun kv => (kv.1, unmarshalInstance kv.2)) =
      m.map fun kv => (kv.1, { kv.2 with err := false }) := by
  induction m with
  | nil => rfl
  | cons hd tl ih => simp [marshalInstance, unmarshalInstance, ih]

/-- C1: the claim says every read or write of the shared maps happens
while the mutual-exclusion guard is held and that the guard is never held
across a blocking remote call or sleep.  The code violates both halves:
efsbroker `Provision` performs the `CreateFileSystem` remote call while
holding the mutex, efsbroker `LastOperation` reads the instance map with
no lock at all, and nfsbroker `Provision` runs its conflict-check read and
its map write before taking the mutex — while `Deprovision`,
`setErrorOnInstance`, the destroy task, the create task and `Bind` do
respect the contract. -/
theorem efs_C1_bug :
    guardedOk provisionTraceEfs 0 = false ∧
    guardedOk lastOperationTraceEfs 0 = false ∧
    guardedOk provisionTraceNfs 0 = false ∧
    guardedOk deprovisionTraceEfs 0 = true ∧
    guardedOk setErrorTraceEfs 0 = true ∧
    guardedOk deprovisionTaskTraceEfs 0 = true ∧
    guardedOk createMountTargetsTraceEfs 0 = true ∧
    guardedOk bindTraceEfs 0 = true := by
  decide

/-- C4: the claim says the create background task polls until the remote
side reports `available` and that a transient describe failure is retried
on the next iteration rather than aborting the wait or advancing early.
In the code a describe error makes `getFsStatus` return state `""`, which
exits the `for state == creating` loop, so after a first successful
`creating` poll and one transient failure the task advances straight to
`CreateMountTarget` even though later polls would still say `creating` —
the error-handling `continue` branch inside the loop is unreachable. -/
theorem efs_C4_bug :
    cmtWait pollsC4 10 1 (getFsStatus (pollsC4 0)) =
      some ("", some (.remote "connection timeout")) ∧
    createMountTargets envC4 10 stW = some (stW, true, none) ∧
    pollsC4 0 = .ok [some lifeCycleStateCreating] ∧
    pollsC4 1 = .error (.remote "connection timeout") ∧
    pollsC4 2 = .ok [some lifeCycleStateCreating] := by
  refine ⟨by decide, by decide, rfl, rfl, by decide⟩

/-- C7: the claim says a second create request with details identical to
the stored record is accepted without a conflict error.  In the code
`instanceConflicts` calls `reflect.DeepEqual` on a `ProvisionDetails`
value and an `EFSInstance` value, which have distinct types and are
therefore never deeply equal, so ANY second request for an existing id —
identical details included — is rejected with the
instance-already-exists error. -/
theorem efs_C7_bug :
    Provision (.ok "fs-abc") ⟨[], []⟩ "inst-1" dW true =
      (⟨[("inst-1", ⟨dW, "fs-abc", false⟩)], []⟩, .accepted) ∧
    deepEqualDetailsInstance dW ⟨dW, "fs-abc", false⟩ = false ∧
    instanceConflicts ⟨[("inst-1", ⟨dW, "fs-abc", false⟩)], []⟩ dW "inst-1" = true ∧
    Provision (.ok "fs-abc") ⟨[("inst-1", ⟨dW, "fs-abc", false⟩)], []⟩ "inst-1" dW true =
      (⟨[("inst-1", ⟨dW, "fs-abc", false⟩)], []⟩, .instanceAlreadyExists) := by
  refine ⟨by decide, rfl, by decide, by decide⟩

/-- C8 counterexample: the claim says a save/restore round-trip preserves
every field including the failure flag.  For the state `stC8`, whose one
instance has its failure flag set, the round-trip returns the instance
with the flag cleared — the unexported `err` field is dropped by the JSON
encoder — so the restored state differs from the saved one. -/
theorem efs_C8_counterexample :
    restoreDynamicState (persist stC8) =
      ⟨[("inst-1", ⟨dW, "fs-1", false⟩)], [("b-1", bdW)]⟩ ∧
    restoreDynamicState (persist stC8) ≠ stC8 ∧
    (mapLookup stC8.instanceMap "inst-1").map EFSInstance.err = some true ∧
    (mapLookup (restoreDynamicState (persist stC8)).instanceMap "inst-1").map
        EFSInstance.err = some false := by
  refine ⟨by decide, by decide, by decide, by decide⟩

/-- C8 amended: saving and restoring reproduces the same instance ids and
binding records, with the provision details and the remote filesystem id
of every instance preserved, but the failure flag — an unexported field
the JSON layer skips — always comes back as `false`. -/
theorem efs_C8_amended (st : DynamicState) :
    restoreDynamicState (persist st) =
      ⟨st.instanceMap.map (fun kv => (kv.1, { kv.2 with err := false })),
        st.bindingMap⟩ := by
  simp only [persist, restoreDynamicState]
  rw [roundTripInstanceMap]

/-- C10: for every state and every argument, `Bind` and `Unbind` of the
efsbroker lifecycle controller return the `unimplemented` error and leave
the instance and binding maps unchanged. -/
theorem efs_C10 (st : DynamicState) (iid bid : String) (d : BindDetails) :
    Bind st iid bid d = (st, .error .unimplemented) ∧
    Unbind st iid bid = (st, .error .unimplemented) :=
  ⟨rfl, rfl⟩

/-- C3: the combined creation status is computed as the claim states —
a filesystem state other than `available` is returned raw; an available
filesystem with no mount targets reports `creating`; otherwise the first
mount target's lifecycle state is returned — and the resulting state maps
to the poll result as `creating` to in-progress, `available` to succeeded,
and any other state (error lifecycle states included) to failed. -/
theorem efs_C3 (env : StatusEnv) (st : DynamicState) (idS : String) :
    (∀ s, getFsStatus env.describeFileSystems = (s, none) →
        s ≠ lifeCycleStateAvailable → getStatus env = .ok s) ∧
    (getFsStatus env.describeFileSystems = (lifeCycleStateAvailable, none) →
        env.describeMountTargets = .ok [] →
        getStatus env = .ok lifeCycleStateCreating) ∧
    (∀ mt rest, getFsStatus env.describeFileSystems = (lifeCycleStateAvailable, none) →
        env.describeMountTargets = .ok (mt :: rest) →
        getStatus env = .ok mt.lifeCycleState) ∧
    (∀ s inst, mapLookup st.instanceMap idS = some inst → getStatus env = .ok s →
        LastOperation env st idS "provision" = .ok (awsStateToLastOperation s)) ∧
    awsStateToLastOperation lifeCycleStateCreating = .inProgress ∧
    awsStateToLastOperation lifeCycleStateAvailable = .succeeded ∧
    (∀ s, s ≠ lifeCycleStateCreating → s ≠ lifeCycleStateAvailable →
        awsStateToLastOperation s = .failed) := by
  refine ⟨?_, ?_, ?_, ?_, rfl, rfl, ?_⟩
  · intro s h hs
    simp only [getStatus, h]
    rw [if_pos hs]
  · intro h1 h2
    simp only [getStatus, h1]
    rw [if_neg (by simp)]
    simp [getMountsStatus, h2]
  · intro mt rest h1 h2
    simp only [getStatus, h1]
    rw [if_neg (by simp)]
    simp [getMountsStatus, h2]
  · intro s inst hlk hgs
    simp [LastOperation, hlk, hgs]
  · intro s h1 h2
    simp [awsStateToLastOperation, h1, h2]

/-- C3 witness: the theorem applied to the concrete environments — a
`deleting` filesystem is returned raw and polls as failed, an available
filesystem without mount targets reports `creating`, one with a `creating`
mount target reports that state, and the `error` lifecycle state maps to
failed. -/
theorem efs_C3_witness :
    getStatus envC3a = .ok "deleting" ∧
    getStatus envC3b = .ok lifeCycleStateCreating ∧
    getStatus envC3c = .ok "creating" ∧
    LastOperation envC3a stW "inst-1" "provision" = .ok .failed ∧
    awsStateToLastOperation "error" = .failed := by
  refine ⟨?_, ?_, ?_, ?_, ?_⟩
  · exact (efs_C3 envC3a stW "inst-1").1 "deleting" rfl (by decide)
  · exact (efs_C3 envC3b stW "inst-1").2.1 rfl rfl
  · exact (efs_C3 envC3c stW "inst-1").2.2.1 ⟨"mt-1", "creating"⟩ [] rfl rfl
  · exact (efs_C3 envC3a stW "inst-1").2.2.2.1 "deleting" instW (by decide)
      ((efs_C3 envC3a stW "inst-1").1 "deleting" rfl (by decide))
  · exact (efs_C3 envC3a stW "inst-1").2.2.2.2.2.2 "error" (by decide) (by decide)

/-- C9: if the filesystem wait loop of the create background task ends
with the `available` state and the `CreateMountTarget` call fails, the
failure is only logged: the dynamic state — in particular the instance
record — comes back entirely unchanged, with no failure flag set and
nothing removed. -/
theorem efs_C9 (env : CreateEnv) (fuel : Nat) (st : DynamicState) (e : Err)
    (hc : env.createMountTarget = .error e)
    (hw : cmtWait env.fsPolls fuel 1 (getFsStatus (env.fsPolls 0)) =
      some (lifeCycleStateAvailable, none)) :
    createMountTargets env fuel st = some (st, true, some e) := by
  simp only [createMountTargets, hw, hc]

/-- C9 witness: under `envC9` — filesystem available at once,
mount-target creation failing — the task returns the state unchanged with
the error merely recorded for the log. -/
theorem efs_C9_witness :
    createMountTargets envC9 3 stW =
      some (stW, true, some (.remote "subnet exhausted")) :=
  efs_C9 envC9 3 stW (.remote "subnet exhausted") rfl (by decide)

theorem deprovision_calls (env : DestroyEnv) (fuel : Nat) (st : DynamicState)
    (idS : String) (out : DestroyOutcome)
    (himpl : deprovision env fuel st idS = some out) :
    out.deleteMTCalled = (deleteMountTargets env).2 ∧
    ((deleteMountTargets env).1 = .ok () → out.deleteFSCalled = true) := by
  cases h1 : (deleteMountTargets env).1 with
  | error e =>
    rw [deprovision_dmtError env fuel st idS e h1] at himpl
    injection himpl with h
    subst h
    refine ⟨rfl, fun hk => ?_⟩
    simp [h1] at hk
  | ok u =>
    cases u
    cases hw : mountsWait env.mountsPolls fuel with
    | none =>
      simp only [deprovision, h1, hw] at himpl
      exact Option.noConfusion himpl
    | some u2 =>
      cases u2
      cases h2 : env.deleteFileSystem with
      | error e =>
        rw [deprovision_deleteFsError env fuel st idS e h1 hw h2] at himpl
        injection himpl with h
        subst h
        exact ⟨rfl, fun _ => rfl⟩
      | ok u3 =>
        cases u3
        cases h3 : fsWait env.fsPolls fuel with
        | none =>
          simp only [deprovision, h1, hw, h2, h3] at himpl
          exact Option.noConfusion himpl
        | some p =>
          obtain ⟨s, oe⟩ := p
          cases oe with
          | none =>
            rw [deprovision_success env fuel st idS s h1 hw h2 h3] at himpl
            injection himpl with h
            subst h
            exact ⟨rfl, fun _ => rfl⟩
          | some e =>
            cases hc : strContains e.msg "does not exist" with
            | true =>
              rw [deprovision_fsPollTolerated env fuel st idS s e h1 hw h2 h3 hc] at himpl
              injection himpl with h
              subst h
              exact ⟨rfl, fun _ => rfl⟩
            | false =>
              rw [deprovision_fsPollError env fuel st idS s e h1 hw h2 h3 hc] at himpl
              injection himpl with h
              subst h
              exact ⟨rfl, fun _ => rfl⟩

/-- C2 counterexample: the claim says any step failure marks the instance
failed AND persists the state.  Under `envC2fail` the very first destroy
step fails, the instance is marked failed — but `setErrorOnInstance` never
persists, so nothing is written out (`persisted = false`), refuting the
persistence half of the claim. -/
theorem efs_C2_counterexample :
    deprovision envC2fail 2 stW "inst-1" = some outC2fail ∧
    (deleteMountTargets envC2fail).1 =
      .error (.remote "AccessDenied: describe failed") ∧
    outC2fail.persisted = false ∧
    mapLookup outC2fail.state.instanceMap "inst-1" = some ⟨dW, "fs-1", true⟩ := by
  refine ⟨by decide, rfl, rfl, by decide⟩

/-- C2 amended: for every accepted destroy request, if every remote step
succeeds the task removes the instance record and persists the state, so
a destroy-status poll returns Succeeded because the record is absent; if
any step fails (a final-poll error whose message says the filesystem does
not exist counting as success), the task marks the instance record failed
— WITHOUT persisting — so a destroy-status poll returns Failed while the
record remains present. -/
theorem efs_C2_amended (env : DestroyEnv) (fuel : Nat) (st : DynamicState)
    (idS : String) (inst : EFSInstance) (senv : StatusEnv) (out : DestroyOutcome)
    (_hacc : Deprovision st idS = .accepted)
    (hlk : mapLookup st.instanceMap idS = some inst)
    (himpl : deprovision env fuel st idS = some out) :
    (∀ s, (deleteMountTargets env).1 = .ok () → env.deleteFileSystem = .ok () →
        fsWait env.fsPolls fuel = some (s, none) →
        mapLookup out.state.instanceMap idS = none ∧ out.persisted = true ∧
        LastOperation senv out.state idS "deprovision" = .ok .succeeded) ∧
    (∀ e, (deleteMountTargets env).1 = .error e →
        mapLookup out.state.instanceMap idS = some { inst with err := true } ∧
        out.persisted = false ∧
        LastOperation senv out.state idS "deprovision" = .ok .failed) ∧
    (∀ e, (deleteMountTargets env).1 = .ok () → env.deleteFileSystem = .error e →
        mapLookup out.state.instanceMap idS = some { inst with err := true } ∧
        out.persisted = false ∧
        LastOperation senv out.state idS "deprovision" = .ok .failed) ∧
    (∀ s e, (deleteMountTargets env).1 = .ok () → env.deleteFileSystem = .ok () →
        fsWait env.fsPolls fuel = some (s, some e) →
        strContains e.msg "does not exist" = false →
        mapLookup out.state.instanceMap idS = some { inst with err := true } ∧
        out.persisted = false ∧
        LastOperation senv out.state idS "deprovision" = .ok .failed) := by
  refine ⟨?_, ?_, ?_, ?_⟩
  · intro s h1 h2 h3
    have hw := deprovision_terminates_mountsWait env fuel st idS out h1 himpl
    rw [deprovision_success env fuel st idS s h1 hw h2 h3] at himpl
    injection himpl with h
    subst h
    exact ⟨removeInstance_lookup st idS, rfl,
      lastOperation_deprovision_succeeded senv _ idS (removeInstance_lookup st idS)⟩
  · intro e h1
    rw [deprovision_dmtError env fuel st idS e h1] at himpl
    injection himpl with h
    subst h
    exact ⟨setErrorOnInstance_lookup st idS inst hlk, rfl,
      lastOperation_deprovision_failed senv _ idS { inst with err := true }
        (setErrorOnInstance_lookup st idS inst hlk) rfl⟩
  · intro e h1 h2
    have hw := deprovision_terminates_mountsWait env fuel st idS out h1 himpl
    rw [deprovision_deleteFsError env fuel st idS e h1 hw h2] at himpl
    injection himpl with h
    subst h
    exact ⟨setErrorOnInstance_lookup st idS inst hlk, rfl,
      lastOperation_deprovision_failed senv _ idS { inst with err := true }
        (setErrorOnInstance_lookup st idS inst hlk) rfl⟩
  · intro s e h1 h2 h3 hc
    have hw := deprovision_terminates_mountsWait env fuel st idS out h1 himpl
    rw [deprovision_fsPollError env fuel st idS s e h1 hw h2 h3 hc] at himpl
    injection himpl with h
    subst h
    exact ⟨setErrorOnInstance_lookup st idS inst hlk, rfl,
      lastOperation_deprovision_failed senv _ idS { inst with err := true }
        (setErrorOnInstance_lookup st idS inst hlk) rfl⟩

/-- C2 witness: the amended theorem applied to a fully successful destroy
(`envDestroyOk`: record removed, state persisted, poll Succeeded) and to a
destroy whose first step fails (`envC2fail`: record kept with the failure
flag set, nothing persisted, poll Failed). -/
theorem efs_C2_witness :
    (mapLookup outDestroyOk.state.instanceMap "inst-1" = none ∧
      outDestroyOk.persisted = true ∧
      LastOperation senvW outDestroyOk.state "inst-1" "deprovision" = .ok .succeeded) ∧
    (mapLookup outC2fail.state.instanceMap "inst-1" = some ⟨dW, "fs-1", true⟩ ∧
      outC2fail.persisted = false ∧
      LastOperation senvW outC2fail.state "inst-1" "deprovision" = .ok .failed) := by
  constructor
  · exact (efs_C2_amended envDestroyOk 2 stW "inst-1" instW senvW outDestroyOk
      (by decide) (by decide) (by decide)).1 "deleted" (by decide) rfl (by decide)
  · exact ((efs_C2_amended envC2fail 2 stW "inst-1" instW senvW outC2fail
      (by decide) (by decide) (by decide)).2).1
      (.remote "AccessDenied: describe failed") rfl

/-- C5: for every accepted destroy request, if the mount-target describe
returns an empty list the workflow treats mount-target deletion as done
and proceeds to the filesystem-deletion step without issuing a
mount-target delete; and if the first-listed mount target is not
`available` the workflow fails immediately with the precondition error —
no mount-target delete and no filesystem delete is issued — leaving the
instance present with the failure flag set, observable as Failed on a
destroy-status poll. -/
theorem efs_C5 (env : DestroyEnv) (fuel : Nat) (st : DynamicState)
    (idS : String) (inst : EFSInstance) (senv : StatusEnv)
    (hlk : mapLookup st.instanceMap idS = some inst) :
    (env.describeMountTargets = .ok [] →
        deleteMountTargets env = (.ok (), false) ∧
        ∀ out, deprovision env fuel st idS = some out →
          out.deleteMTCalled = false ∧ out.deleteFSCalled = true) ∧
    (∀ mt rest, env.describeMountTargets = .ok (mt :: rest) →
        mt.lifeCycleState ≠ lifeCycleStateAvailable →
        deleteMountTargets env = (.error .invalidLifecycle, false) ∧
        deprovision env fuel st idS =
          some ⟨setErrorOnInstance st idS, false, false, false⟩ ∧
        mapLookup (setErrorOnInstance st idS).instanceMap idS =
          some { inst with err := true } ∧
        LastOperation senv (setErrorOnInstance st idS) idS "deprovision" =
          .ok .failed) := by
  constructor
  · intro h
    have hd : deleteMountTargets env = (.ok (), false) := by
      simp [deleteMountTargets, h]
    refine ⟨hd, fun out himpl => ?_⟩
    have h1 : (deleteMountTargets env).1 = .ok () := by rw [hd]
    obtain ⟨hmt, hfs⟩ := deprovision_calls env fuel st idS out himpl
    refine ⟨?_, hfs h1⟩
    rw [hmt, hd]
  · intro mt rest h hs
    have hd : deleteMountTargets env = (.error .invalidLifecycle, false) := by
      simp [deleteMountTargets, h, hs]
    have h1 : (deleteMountTargets env).1 = .error .invalidLifecycle := by rw [hd]
    have himpl := deprovision_dmtError env fuel st idS .invalidLifecycle h1
    rw [hd] at himpl
    exact ⟨hd, himpl, setErrorOnInstance_lookup st idS inst hlk,
      lastOperation_deprovision_failed senv _ idS { inst with err := true }
        (setErrorOnInstance_lookup st idS inst hlk) rfl⟩

/-- C5 witness: the theorem applied to `envC5empty` (no mount targets:
skip straight to filesystem deletion) and `envC5busy` (a `creating` mount
target: precondition error, no delete calls, instance failed on poll). -/
theorem efs_C5_witness :
    (deleteMountTargets envC5empty = (.ok (), false) ∧
      outC5empty.deleteMTCalled = false ∧ outC5empty.deleteFSCalled = true) ∧
    (deleteMountTargets envC5busy = (.error .invalidLifecycle, false) ∧
      deprovision envC5busy 2 stW "inst-1" =
        some ⟨setErrorOnInstance stW "inst-1", false, false, false⟩ ∧
      mapLookup (setErrorOnInstance stW "inst-1").instanceMap "inst-1" =
        some { instW with err := true } ∧
      LastOperation senvW (setErrorOnInstance stW "inst-1") "inst-1" "deprovision" =
        .ok .failed) := by
  constructor
  · have h := (efs_C5 envC5empty 2 stW "inst-1" instW senvW (by decide)).1 rfl
    exact ⟨h.1, h.2 outC5empty (by decide)⟩
  · exact (efs_C5 envC5busy 2 stW "inst-1" instW senvW (by decide)).2
      ⟨"mt-1", "creating"⟩ [] rfl (by decide)

/-- C6 counterexample: the claim says a remote error saying the filesystem
does not exist is treated as successful deletion, with the record removed
and no failure flag.  Under `envC6` the `DeleteFileSystem` call itself
fails with exactly such an error, and the code marks the instance failed
and keeps the record — the does-not-exist tolerance never applies to the
delete call. -/
theorem efs_C6_counterexample :
    strContains (Err.remote "File system fs-1 does not exist").msg
      "does not exist" = true ∧
    deprovision envC6 2 stW "inst-1" = some outC6 ∧
    outC6.persisted = false ∧
    mapLookup outC6.state.instanceMap "inst-1" = some ⟨dW, "fs-1", true⟩ ∧
    LastOperation senvW outC6.state "inst-1" "deprovision" = .ok .failed := by
  refine ⟨by decide, by decide, rfl, by decide, by decide⟩

/-- C6 amended: only during the post-delete status polling is a remote
error whose message contains `does not exist` treated as successful
deletion — the workflow then removes the record, persists, and a poll
reports Succeeded; an error from the `DeleteFileSystem` call itself, even
one saying the filesystem does not exist, instead marks the instance
failed without persisting. -/
theorem efs_C6_amended (env : DestroyEnv) (fuel : Nat) (st : DynamicState)
    (idS : String) (inst : EFSInstance) (senv : StatusEnv)
    (hlk : mapLookup st.instanceMap idS = some inst) :
    (∀ s e out, (deleteMountTargets env).1 = .ok () →
        env.deleteFileSystem = .ok () →
        fsWait env.fsPolls fuel = some (s, some e) →
        strContains e.msg "does not exist" = true →
        deprovision env fuel st idS = some out →
        mapLookup out.state.instanceMap idS = none ∧ out.persisted = true ∧
        LastOperation senv out.state idS "deprovision" = .ok .succeeded) ∧
    (∀ e out, (deleteMountTargets env).1 = .ok () →
        env.deleteFileSystem = .error e →
        deprovision env fuel st idS = some out →
        mapLookup out.state.instanceMap idS = some { inst with err := true } ∧
        out.persisted = false ∧
        LastOperation senv out.state idS "deprovision" = .ok .failed) := by
  constructor
  · intro s e out h1 h2 h3 hc himpl
    have hw := deprovision_terminates_mountsWait env fuel st idS out h1 himpl
    rw [deprovision_fsPollTolerated env fuel st idS s e h1 hw h2 h3 hc] at himpl
    injection himpl with h
    subst h
    exact ⟨removeInstance_lookup st idS, rfl,
      lastOperation_deprovision_succeeded senv _ idS (removeInstance_lookup st idS)⟩
  · intro e out h1 h2 himpl
    have hw := deprovision_terminates_mountsWait env fuel st idS out h1 himpl
    rw [deprovision_deleteFsError env fuel st idS e h1 hw h2] at himpl
    injection himpl with h
    subst h
    exact ⟨setErrorOnInstance_lookup st idS inst hlk, rfl,
      lastOperation_deprovision_failed senv _ idS { inst with err := true }
        (setErrorOnInstance_lookup st idS inst hlk) rfl⟩

/-- C6 witness: the amended theorem applied to `envC6ok` (the tolerated
does-not-exist error arising from the post-delete poll: record removed,
persisted, poll Succeeded) and to `envC6` (the same error text from the
delete call itself: record kept failed, nothing persisted). -/
theorem efs_C6_witness :
    (mapLookup outC6ok.state.instanceMap "inst-1" = none ∧
      outC6ok.persisted = true ∧
      LastOperation senvW outC6ok.state "inst-1" "deprovision" = .ok .succeeded) ∧
    (mapLookup outC6.state.instanceMap "inst-1" = some ⟨dW, "fs-1", true⟩ ∧
      outC6.persisted = false ∧
      LastOperation senvW outC6.state "inst-1" "deprovision" = .ok .failed) := by
  constructor
  · exact (efs_C6_amended envC6ok 2 stW "inst-1" instW senvW (by decide)).1 ""
      (.remote "File system fs-1 does not exist") outC6ok rfl rfl (by decide)
      (by decide) (by decide)
  · exact (efs_C6_amended envC6 2 stW "inst-1" instW senvW (by decide)).2
      (.remote "File system fs-1 does not exist") outC6 rfl rfl (by decide)

end Efsbroker
